/-
Verification of the authentication gate and signed-proxy forwarding layer of
pcluster-manager (src/api/PclusterApiHandler.py), as a shallow embedding.

Modelling conventions:
  * Flask request state (cookies, query args, headers, parsed JSON body) is
    passed explicitly as function arguments.
  * `jwt_decode` is abstracted by an oracle `verify : String → VerifyResult`
    (the cryptographic JWT validation is external to this code base); its
    three observable outcomes at the call site in `authenticate` are success
    with decoded claims, `jwt.ExpiredSignatureError`, and
    `jose.exceptions.JWSSignatureError`.
  * The outbound HTTP transport (`requests.*`) is an oracle
    `send : OutboundCall → HttpResponse`; the botocore SigV4 signing step
    only adds headers the claims never inspect, so signature headers are
    elided from the call record while the inputs bound into the signature
    (method, url, body, region, timeout) are kept.
  * Python `str.split(sep, maxsplit)` and `str.replace` are reimplemented
    character by character; query dicts and headers are association lists
    (werkzeug header lookup is case-insensitive, modelled by lowercasing).
  * A Python function that can raise returns `Except`; `Except.error`
    means the exception propagates and nothing after it runs.
-/
import Mathlib

namespace PclusterSpec

/-! ### Python string primitives -/

/-- Python `s.replace(pat, rep)` on character lists, with fuel (the fuel is
the length of the scanned list, which never runs out; it keeps the recursion
structural so that terms reduce in the kernel). Empty patterns are treated
as no-ops; the code only replaces the nonempty scheme prefixes. -/
def replaceFuel (pat rep : List Char) : Nat → List Char → List Char
  | _, [] => []
  | 0, s => s
  | n + 1, c :: rest =>
    if pat.isPrefixOf (c :: rest) ∧ pat ≠ [] then
      rep ++ replaceFuel pat rep n (rest.drop (pat.length - 1))
    else
      c :: replaceFuel pat rep n rest

/-- Python `s.replace(pat, rep)` (all non-overlapping occurrences, left to
right). -/
def pyReplace (s pat rep : String) : String :=
  ⟨replaceFuel pat.data rep.data s.data.length s.data⟩

/-- Python `s.split(sep)` (no maxsplit) on character lists, with an
accumulator for the current field. -/
def splitAllChAux (sep : Char) : List Char → List Char → List (List Char)
  | [], acc => [acc.reverse]
  | c :: rest, acc =>
    if c = sep then acc.reverse :: splitAllChAux sep rest []
    else splitAllChAux sep rest (c :: acc)

/-- Python `s.split(sep, maxsplit)` on character lists: at most `m` splits
are performed, the remainder is one final field. -/
def splitLimChAux (sep : Char) : List Char → Nat → List Char → List (List Char)
  | [], _, acc => [acc.reverse]
  | c :: rest, 0, acc => [acc.reverse ++ c :: rest]
  | c :: rest, m + 1, acc =>
    if c = sep then acc.reverse :: splitLimChAux sep rest m []
    else splitLimChAux sep rest (m + 1) (c :: acc)

/-- Python `s.split(sep)` for a one-character separator. -/
def pySplitAll (s : String) (sep : Char) : List String :=
  (splitAllChAux sep s.data []).map (fun l => ⟨l⟩)

/-- Python `s.split(sep, maxsplit)` for a one-character separator. -/
def pySplitLim (s : String) (sep : Char) (m : Nat) : List String :=
  (splitLimChAux sep s.data m []).map (fun l => ⟨l⟩)

/-- Number of dot-separated labels of a host string (Python
`len(s.split("."))`). -/
def numLabels (s : String) : Nat :=
  (pySplitAll s '.').length

/-- ASCII-insensitive lowering used for werkzeug's case-insensitive header
keys. -/
def toLowerStr (s : String) : String :=
  ⟨s.data.map Char.toLower⟩

/-! ### Request data: query parameters and headers -/

/-- Query parameters / headers as ordered association lists.  Inbound query
dicts (`request.args` flattened through `{**...}`) have unique keys. -/
abbrev Params := List (String × String)

/-- Python `d.get(k)` on a (case-sensitive) dict. -/
def lookupParam (args : Params) (k : String) : Option String :=
  (args.find? (fun p => p.1 == k)).map (fun p => p.2)

/-- Python `k in d` on a (case-sensitive) dict. -/
def hasParam (args : Params) (k : String) : Bool :=
  args.any (fun p => p.1 == k)

/-- werkzeug `k in request.headers` (case-insensitive). -/
def headersHasKey (hs : Params) (k : String) : Bool :=
  hs.any (fun p => toLowerStr p.1 == toLowerStr k)

/-- werkzeug `request.headers.get(k)` (case-insensitive). -/
def headersGet (hs : Params) (k : String) : Option String :=
  (hs.find? (fun p => toLowerStr p.1 == toLowerStr k)).map (fun p => p.2)

/-- botocore header assignment `headers[k] = v` (case-insensitive
overwrite-or-append). -/
def setHeader (hs : Params) (k v : String) : Params :=
  if hs.any (fun p => toLowerStr p.1 == toLowerStr k) then
    hs.map (fun p => if toLowerStr p.1 == toLowerStr k then (p.1, v) else p)
  else hs ++ [(k, v)]

/-! ### Errors and responses -/

/-- Uncaught Python exceptions the modelled fragment can raise. -/
inductive PyError
  | keyError
  | badRequest
  deriving Repr, DecidableEq

/-- Failure of `sigv4_request` before any outbound dispatch: the tuple
unpacking `_api_id, _service, region, _domain = endpoint.split(".", maxsplit=3)`
raises `ValueError` when the host has fewer than four dot-separated labels
(the spec's `MalformedHost`). -/
inductive SigError
  | malformedHost
  deriving Repr, DecidableEq

/-- A `set_cookie` record: name, value, and the `expires` argument when
given. -/
structure Cookie where
  name : String
  value : String
  expires : Option Nat
  deriving Repr, DecidableEq

/-- A Flask response as far as the gate observes it: status code, redirect
location, and at most one cookie mutation. -/
structure FlaskResponse where
  status : Nat
  location : String
  cookie : Option Cookie
  deriving Repr, DecidableEq

/-- The outbound HTTP call dispatched by `sigv4_request` (line 91 of the
source): method, full URL, serialized body, headers, the region bound into
the SigV4 signature, and the `timeout=` argument passed to `requests.*`. -/
structure OutboundCall where
  method : String
  url : String
  data : Option String
  headers : Params
  region : String
  timeout : Option Nat
  deriving Repr, DecidableEq

/-- A backend HTTP response: status code and (JSON) body text. -/
structure HttpResponse where
  status : Nat
  body : String
  deriving Repr, DecidableEq

/-- Process configuration snapshot (environment variables read at startup). -/
structure Config where
  authPath : String
  clientId : String
  siteUrl : String
  apiBaseUrl : String
  deriving Repr, DecidableEq

/-- Decoded JWT claims as used by the gate: the `cognito:groups` list
(`decoded.get("cognito:groups", [])` — an absent key is the empty list). -/
structure Claims where
  groups : List String
  deriving Repr, DecidableEq

/-- Outcome of `jwt_decode` at its call site in `authenticate`. -/
inductive VerifyResult
  | ok (claims : Claims)
  | expired
  | sigInvalid
  deriving Repr, DecidableEq

/-! ### The authentication gate (lines 97-131) -/

/-- `auth_redirect()`: 302 redirect to the hosted login page; no cookie is
touched. -/
def auth_redirect (cfg : Config) : FlaskResponse :=
  ⟨302, cfg.authPath ++ "/login?response_type=code&client_id=" ++ cfg.clientId
       ++ "&redirect_uri=" ++ cfg.siteUrl ++ "/login", none⟩

/-- `logout()`: 302 redirect to `/login` clearing the `accessToken` cookie
with immediate expiry (`expires=0`). -/
def logout : FlaskResponse :=
  ⟨302, "/login", some ⟨"accessToken", "", some 0⟩⟩

/-- `authenticate(group)` (lines 103-117).  `none` means the gate fell
through, i.e. the request is Allowed to proceed; `some r` is the response
returned instead of the handler.  `accessToken` is the request cookie
(`none` = cookie absent; the empty string is falsy in Python and is treated
like an absent cookie). -/
def authenticate (cfg : Config) (runningLocal disableAuth : Bool)
    (verify : String → VerifyResult) (accessToken : Option String)
    (group : String) : Option FlaskResponse :=
  if runningLocal then none
  else
    match accessToken with
    | none => some (auth_redirect cfg)
    | some t =>
      if t = "" then some (auth_redirect cfg)
      else
        match verify t with
        | .expired => some (auth_redirect cfg)
        | .sigInvalid => some logout
        | .ok decoded =>
          if ¬disableAuth ∧ group ≠ "guest" ∧ group ∉ decoded.groups then
            some (auth_redirect cfg)
          else none

/-- Result of a handler wrapped by the `authenticated` decorator: the
handler's value, a gate response (redirect mode), or `abort(401)`. -/
inductive GateWrapped (α : Type)
  | ok (a : α)
  | http (r : FlaskResponse)
  | abort401
  deriving Repr, DecidableEq

/-- The `authenticated(group, redirect)` decorator (lines 120-131) applied
to a handler producing `func`. -/
def authenticated (α : Type) (group : String) (redirectFlag : Bool)
    (cfg : Config) (runningLocal disableAuth : Bool)
    (verify : String → VerifyResult) (accessToken : Option String)
    (func : α) : GateWrapped α :=
  match authenticate cfg runningLocal disableAuth verify accessToken group with
  | some r => if redirectFlag then .http r else .abort401
  | none => .ok func

/-! ### The request signer (lines 63-91) -/

/-- `host.replace("https://", "").replace("http://", "")`. -/
def stripScheme (host : String) : String :=
  pyReplace (pyReplace host "https://" "") "http://" ""

/-- `"&".join(f"\x7bk\x7d=\x7bv\x7d" for k, v in params.items())`. -/
def request_parameters (params : Params) : String :=
  String.intercalate "&" (params.map (fun p => p.1 ++ "=" ++ p.2))

/-- `sigv4_request(method, host, path, params, headers, body)`
(lines 63-91).  On success it returns the dispatched call together with the
transport's response `send call`; the tuple-unpacking `ValueError` for a
malformed host is `SigError.malformedHost` and nothing is dispatched. -/
def sigv4_request (send : OutboundCall → HttpResponse)
    (method host path : String) (params : Params) (headers : Params)
    (body : Option String) : Except SigError (OutboundCall × HttpResponse) :=
  let endpoint := stripScheme host
  if (pySplitLim endpoint '.' 3).length = 4 then
    let region := (pySplitLim endpoint '.' 3).getD 2 ""
    let url := host ++ path ++ "?" ++ request_parameters params
    let hs1 : Params := match body with
      | some _ => setHeader [] "content-type" "application/json"
      | none => []
    let hs2 := headers.foldl (fun acc kv => setHeader acc kv.1 kv.2) hs1
    let call : OutboundCall := ⟨method, url, body, hs2, region, some 30⟩
    .ok (call, send call)
  else .error .malformedHost

/-! ### The proxy forwarder (lines 585-639) -/

/-- `_get_params(request)` (lines 585-588): copy the query dict and
`pop("path")` — raising `KeyError` when `path` is absent. -/
def _get_params (args : Params) : Except PyError Params :=
  if hasParam args "path" then
    .ok (args.filter (fun p => ¬(p.1 = "path")))
  else .error .keyError

/-- Observable outcome of a proxy handler: the relayed backend response
(with the outbound call that produced it), an uncaught Python exception, a
signing failure, or the decorator's `abort(401)`. -/
inductive ProxyOutcome
  | response (call : OutboundCall) (body : String) (status : Nat)
  | pyError (e : PyError)
  | sigError (e : SigError)
  | abort401
  deriving Repr, DecidableEq

/-- `PclusterApiHandler.get` (lines 597-602), including the class-level
`authenticated("user", redirect=False)` decorator. -/
def pclusterGet (cfg : Config) (send : OutboundCall → HttpResponse)
    (runningLocal disableAuth : Bool) (verify : String → VerifyResult)
    (accessToken : Option String) (args : Params) : ProxyOutcome :=
  match authenticate cfg runningLocal disableAuth verify accessToken "user" with
  | some _ => .abort401
  | none =>
    let pathOpt := lookupParam args "path"
    match _get_params args with
    | .error e => .pyError e
    | .ok ps =>
      match sigv4_request send "GET" cfg.apiBaseUrl (pathOpt.getD "") ps [] none with
      | .error e => .sigError e
      | .ok (c, r) => .response c r.body r.status

/-- `PclusterApiHandler.delete` (lines 618-632): the class decorator gates
at "user", the body re-gates at "admin", then the Content-Type condition
(`"Content-Type" in request.headers and
request.headers.get("ContentType") == "application/json"`) decides whether
the caller's JSON body (`reqJson`, which may itself fail to parse) is
forwarded. -/
def pclusterDelete (cfg : Config) (send : OutboundCall → HttpResponse)
    (runningLocal disableAuth : Bool) (verify : String → VerifyResult)
    (accessToken : Option String) (args : Params) (headers : Params)
    (reqJson : Except PyError String) : ProxyOutcome :=
  match authenticate cfg runningLocal disableAuth verify accessToken "user" with
  | some _ => .abort401
  | none =>
    match authenticate cfg runningLocal disableAuth verify accessToken "admin" with
    | some _ => .abort401
    | none =>
      let bodyE : Except PyError (Option String) :=
        if headersHasKey headers "Content-Type"
            ∧ headersGet headers "ContentType" = some "application/json" then
          reqJson.map some
        else .ok none
      match bodyE with
      | .error e => .pyError e
      | .ok body =>
        match _get_params args with
        | .error e => .pyError e
        | .ok ps =>
          match sigv4_request send "DELETE" cfg.apiBaseUrl
              ((lookupParam args "path").getD "") ps [] body with
          | .error e => .sigError e
          | .ok (c, r) => .response c r.body r.status

/-- Timeout of the call dispatched by a `sigv4_request` result (`none` when
no call was dispatched). -/
def timeoutOfResult : Except SigError (OutboundCall × HttpResponse) → Option Nat
  | .ok (c, _) => c.timeout
  | .error _ => none

/-- Forwarded body of a proxy outcome (`none` when no call was dispatched). -/
def dataOfOutcome : ProxyOutcome → Option (Option String)
  | .response c _ _ => some c.data
  | _ => none

/-! ### Concrete fixtures for witnesses and counterexamples -/

/-- A concrete configuration with a well-formed four-label backend host. -/
def cfg0 : Config :=
  ⟨"https://auth.example.com", "client0", "https://site.example.com",
   "https://a.execute-api.us-east-1.amazonaws.com"⟩

/-- Verifier accepting every token with groups `["user"]`. -/
def verifyUser : String → VerifyResult := fun _ => .ok ⟨["user"]⟩

/-- Verifier accepting every token with groups `["user", "admin"]`. -/
def verifyUA : String → VerifyResult := fun _ => .ok ⟨["user", "admin"]⟩

/-- Verifier failing every token with an expired signature. -/
def verifyExpired : String → VerifyResult := fun _ => .expired

/-- Verifier failing every token with an invalid signature. -/
def verifySigBad : String → VerifyResult := fun _ => .sigInvalid

/-- Transport answering 200 with a fixed body. -/
def send200 : OutboundCall → HttpResponse := fun _ => ⟨200, "okbody"⟩

/-- Transport answering 500 with a fixed body. -/
def send500 : OutboundCall → HttpResponse := fun _ => ⟨500, "errbody"⟩

/-! ### Helper lemmas -/

/-- `str.split` always yields at least one field. -/
theorem length_splitAll_pos (sep : Char) (s acc : List Char) :
    0 < (splitAllChAux sep s acc).length := by
  induction s generalizing acc with
  | nil => simp [splitAllChAux]
  | cons c rest ih =>
    by_cases hc : c = sep
    · simp [splitAllChAux, hc]
    · simp only [splitAllChAux, if_neg hc]
      exact ih _

/-- The field count of a maxsplit-limited split is the unbounded field count
capped at `m + 1`. -/
theorem length_splitLim (sep : Char) (s : List Char) (m : Nat)
    (acc acc' : List Char) :
    (splitLimChAux sep s m acc).length =
      min (splitAllChAux sep s acc').length (m + 1) := by
  induction s generalizing m acc acc' with
  | nil =>
    simp [splitLimChAux, splitAllChAux]
  | cons c rest ih =>
    cases m with
    | zero =>
      by_cases hc : c = sep
      · simp only [splitLimChAux, splitAllChAux, if_pos hc, List.length_cons,
          List.length_singleton, List.length_nil]
        omega
      · simp only [splitLimChAux, splitAllChAux, if_neg hc,
          List.length_singleton, List.length_nil]
        have := length_splitAll_pos sep rest (c :: acc')
        omega
    | succ m =>
      by_cases hc : c = sep
      · simp only [splitLimChAux, splitAllChAux, if_pos hc, List.length_cons,
          List.length_nil]
        rw [ih m [] []]
        omega
      · simp only [splitLimChAux, splitAllChAux, if_neg hc]
        exact ih (m + 1) (c :: acc) (c :: acc')

/-- String-level version of `length_splitLim`. -/
theorem length_pySplitLim (s : String) (sep : Char) (m : Nat) :
    (pySplitLim s sep m).length = min (pySplitAll s sep).length (m + 1) := by
  simp [pySplitLim, pySplitAll, length_splitLim sep s.data m [] []]

/-- Inverting a successful `sigv4_request`: the response is what the
transport returned for the dispatched call, and the dispatch carried
`timeout=30`. -/
theorem sigv4_ok_elim (send : OutboundCall → HttpResponse)
    (method host path : String) (params headers : Params)
    (body : Option String) (c : OutboundCall) (r : HttpResponse)
    (h : sigv4_request send method host path params headers body = .ok (c, r)) :
    r = send c ∧ c.timeout = some 30 := by
  unfold sigv4_request at h
  by_cases hc : (pySplitLim (stripScheme host) '.' 3).length = 4
  · simp only [hc, if_true, Except.ok.injEq, Prod.mk.injEq] at h
    obtain ⟨hcall, hr⟩ := h
    subst hcall
    subst hr
    exact ⟨rfl, rfl⟩
  · simp [hc] at h

/-- A key that `get`s to a value is present. -/
theorem hasParam_of_lookupParam (args : Params) (k v : String)
    (h : lookupParam args k = some v) : hasParam args k = true := by
  unfold lookupParam at h
  cases hf : args.find? (fun p => p.1 == k) with
  | none => rw [hf] at h; simp at h
  | some p =>
    have hp := List.find?_some hf
    have hm := List.mem_of_find?_eq_some hf
    exact List.any_eq_true.mpr ⟨p, hm, hp⟩

/-- `authenticate` on a verified (present, unexpired, untampered) credential
reduces to the group test. -/
theorem authenticate_ok_verified (cfg : Config) (dis : Bool)
    (verify : String → VerifyResult) (t : String) (claims : Claims)
    (g : String) (ht : t ≠ "") (hv : verify t = .ok claims) :
    authenticate cfg false dis verify (some t) g =
      if ¬dis ∧ g ≠ "guest" ∧ g ∉ claims.groups then some (auth_redirect cfg)
      else none := by
  simp [authenticate, ht, hv]

/-! ### Claim theorems -/

/-- C1: in deployed mode with authorization enabled, for every required
group g in \x7bguest, user, admin\x7d and every verified claim set, the gate
is Allowed (falls through) iff g = "guest" or g is in the claim set's group
list; otherwise it returns the login redirect, and at API call sites
(`redirect=False`) the wrapper aborts with 401. -/
theorem authorize_allowed_iff (cfg : Config) (verify : String → VerifyResult)
    (t : String) (claims : Claims) (g : String)
    (_hg : g = "guest" ∨ g = "user" ∨ g = "admin")
    (ht : t ≠ "") (hv : verify t = .ok claims) :
    (authenticate cfg false false verify (some t) g = none ↔
      (g = "guest" ∨ g ∈ claims.groups))
    ∧ (¬(g = "guest" ∨ g ∈ claims.groups) →
        authenticate cfg false false verify (some t) g = some (auth_redirect cfg)
        ∧ authenticated Unit g false cfg false false verify (some t) () = .abort401) := by
  have hch := authenticate_ok_verified cfg false verify t claims g ht hv
  constructor
  · rw [hch]
    by_cases h : g = "guest" ∨ g ∈ claims.groups
    · rw [if_neg]
      · simp [h]
      · push_neg
        intro _ hng
        rcases h with h | h
        · exact absurd h hng
        · exact h
    · rw [if_pos]
      · simp [h]
      · push_neg at h
        exact ⟨by simp, h.1, h.2⟩
  · intro h
    push_neg at h
    have hred : authenticate cfg false false verify (some t) g =
        some (auth_redirect cfg) := by
      rw [hch, if_pos]
      exact ⟨by simp, h.1, h.2⟩
    refine ⟨hred, ?_⟩
    simp [authenticated, hred]

/-- C1 witness: a verified credential with groups `["user"]` asked for the
group "user". -/
theorem authorize_allowed_iff_witness :
    (("user" : String) = "guest" ∨ ("user" : String) = "user"
        ∨ ("user" : String) = "admin")
    ∧ ("tok" : String) ≠ ""
    ∧ verifyUser "tok" = .ok ⟨["user"]⟩
    ∧ ((authenticate cfg0 false false verifyUser (some "tok") "user" = none ↔
          (("user" : String) = "guest" ∨ "user" ∈ (Claims.mk ["user"]).groups))
        ∧ (¬(("user" : String) = "guest" ∨ "user" ∈ (Claims.mk ["user"]).groups) →
            authenticate cfg0 false false verifyUser (some "tok") "user" =
              some (auth_redirect cfg0)
            ∧ authenticated Unit "user" false cfg0 false false verifyUser
                (some "tok") () = .abort401)) :=
  ⟨Or.inr (Or.inl rfl), by decide, rfl,
   authorize_allowed_iff cfg0 verifyUser "tok" ⟨["user"]⟩ "user"
     (Or.inr (Or.inl rfl)) (by decide) rfl⟩

/-- C2 counterexample: with the authorization-disabled flag set and the
credential absent, the gate still returns the login redirect, not Allowed —
`disable_auth` only short-circuits the group check, not the whole gate. -/
theorem disabled_auth_absent_credential_counterexample :
    authenticate cfg0 false true verifyUser none "user" = some (auth_redirect cfg0)
    ∧ authenticate cfg0 false true verifyUser none "user" ≠ none := by
  refine ⟨rfl, ?_⟩
  simp [authenticate]

/-- C2 (amended): with the authorization-disabled flag set, any request
carrying a verified (present, unexpired, signature-valid) credential is
Allowed regardless of its groups and of the required group. -/
theorem disabled_auth_skips_group_check (cfg : Config)
    (verify : String → VerifyResult) (t : String) (claims : Claims)
    (g : String) (ht : t ≠ "") (hv : verify t = .ok claims) :
    authenticate cfg false true verify (some t) g = none := by
  rw [authenticate_ok_verified cfg true verify t claims g ht hv]
  simp

/-- C2 (amended) witness: disabled authorization lets a credential with
groups `["user"]` pass an "admin" check. -/
theorem disabled_auth_skips_group_check_witness :
    ("tok" : String) ≠ ""
    ∧ verifyUser "tok" = .ok ⟨["user"]⟩
    ∧ authenticate cfg0 false true verifyUser (some "tok") "admin" = none :=
  ⟨by decide, rfl,
   disabled_auth_skips_group_check cfg0 verifyUser "tok" ⟨["user"]⟩ "admin"
     (by decide) rfl⟩

/-- C3: in deployed mode, a token failing verification as expired always
yields the login redirect and never Allowed, for every required group and
whatever groups the token carries, with or without the disable flag. -/
theorem expired_token_redirects (cfg : Config) (dis : Bool)
    (verify : String → VerifyResult) (t g : String)
    (ht : t ≠ "") (hv : verify t = .expired) :
    authenticate cfg false dis verify (some t) g = some (auth_redirect cfg)
    ∧ authenticate cfg false dis verify (some t) g ≠ none := by
  have h : authenticate cfg false dis verify (some t) g =
      some (auth_redirect cfg) := by
    simp [authenticate, ht, hv]
  exact ⟨h, by simp [h]⟩

/-- C3 witness: an expired token checked against "guest". -/
theorem expired_token_redirects_witness :
    ("tok" : String) ≠ ""
    ∧ verifyExpired "tok" = .expired
    ∧ (authenticate cfg0 false false verifyExpired (some "tok") "guest" =
          some (auth_redirect cfg0)
        ∧ authenticate cfg0 false false verifyExpired (some "tok") "guest" ≠ none) :=
  ⟨by decide, rfl,
   expired_token_redirects cfg0 false verifyExpired "tok" "guest" (by decide) rfl⟩

/-- C4: in deployed mode, a token failing signature verification always
yields the logout outcome — a 302 to the login path clearing the
`accessToken` cookie with immediate expiry — never Allowed, and that
outcome differs from the expiry redirect for every configuration. -/
theorem tampered_token_logs_out (cfg : Config) (dis : Bool)
    (verify : String → VerifyResult) (t g : String)
    (ht : t ≠ "") (hv : verify t = .sigInvalid) :
    authenticate cfg false dis verify (some t) g = some logout
    ∧ logout.cookie = some ⟨"accessToken", "", some 0⟩
    ∧ logout.location = "/login"
    ∧ logout ≠ auth_redirect cfg
    ∧ authenticate cfg false dis verify (some t) g ≠ none := by
  have h : authenticate cfg false dis verify (some t) g = some logout := by
    simp [authenticate, ht, hv]
  refine ⟨h, rfl, rfl, ?_, by simp [h]⟩
  intro he
  have hcookie := congrArg FlaskResponse.cookie he
  simp [logout, auth_redirect] at hcookie

/-- C4 witness: a tampered token checked against "admin". -/
theorem tampered_token_logs_out_witness :
    ("tok" : String) ≠ ""
    ∧ verifySigBad "tok" = .sigInvalid
    ∧ (authenticate cfg0 false false verifySigBad (some "tok") "admin" = some logout
        ∧ logout.cookie = some ⟨"accessToken", "", some 0⟩
        ∧ logout.location = "/login"
        ∧ logout ≠ auth_redirect cfg0
        ∧ authenticate cfg0 false false verifySigBad (some "tok") "admin" ≠ none) :=
  ⟨by decide, rfl,
   tampered_token_logs_out cfg0 false verifySigBad "tok" "admin" (by decide) rfl⟩

/-- C5: for every host whose scheme-stripped form has fewer than four
dot-separated labels, `sigv4_request` fails with the malformed-host error
and dispatches no signed request, whatever the method, path, parameters,
headers and body. -/
theorem malformed_host_fails_signing (send : OutboundCall → HttpResponse)
    (method host path : String) (params headers : Params) (body : Option String)
    (h : numLabels (stripScheme host) < 4) :
    sigv4_request send method host path params headers body =
      .error .malformedHost := by
  have hlen : (pySplitLim (stripScheme host) '.' 3).length =
      min (numLabels (stripScheme host)) 4 :=
    length_pySplitLim (stripScheme host) '.' 3
  have hne : ¬((pySplitLim (stripScheme host) '.' 3).length = 4) := by
    rw [hlen]
    omega
  simp only [sigv4_request]
  rw [if_neg hne]

/-- C5 witness: `https://example.com` strips to two labels. -/
theorem malformed_host_fails_signing_witness :
    numLabels (stripScheme "https://example.com") < 4
    ∧ sigv4_request send200 "GET" "https://example.com" "/v3/clusters" [] [] none =
        .error .malformedHost :=
  ⟨by decide,
   malformed_host_fails_signing send200 "GET" "https://example.com"
     "/v3/clusters" [] [] none (by decide)⟩

/-- C6: whenever the gate allows a GET through and the signed dispatch
succeeds, the proxy returns exactly the backend's body and status code, and
that response is literally what the transport returned for the dispatched
call — no status translation of any kind. -/
theorem forward_relays_backend (cfg : Config)
    (send : OutboundCall → HttpResponse) (dis : Bool)
    (verify : String → VerifyResult) (tok : Option String) (args : Params)
    (p : String) (c : OutboundCall) (r : HttpResponse)
    (hAuth : authenticate cfg false dis verify tok "user" = none)
    (hPath : lookupParam args "path" = some p)
    (hSig : sigv4_request send "GET" cfg.apiBaseUrl p
        (args.filter (fun q => ¬(q.1 = "path"))) [] none = .ok (c, r)) :
    pclusterGet cfg send false dis verify tok args = .response c r.body r.status
    ∧ r = send c := by
  have hHas : hasParam args "path" = true := hasParam_of_lookupParam args "path" p hPath
  have hps : _get_params args = .ok (args.filter (fun q => ¬(q.1 = "path"))) := by
    simp [_get_params, hHas]
  have hr := (sigv4_ok_elim send "GET" cfg.apiBaseUrl p
    (args.filter (fun q => ¬(q.1 = "path"))) [] none c r hSig).1
  refine ⟨?_, hr⟩
  simp only [pclusterGet, hAuth, hPath, hps, Option.getD_some, hSig]

/-- C6 witness: a GET for `/v3/clusters/foo` in `us-east-1` relayed by a
200-answering backend. -/
theorem forward_relays_backend_witness :
    authenticate cfg0 false false verifyUser (some "tok") "user" = none
    ∧ lookupParam [("path", "/v3/clusters/foo"), ("region", "us-east-1")] "path" =
        some "/v3/clusters/foo"
    ∧ sigv4_request send200 "GET" cfg0.apiBaseUrl "/v3/clusters/foo"
        ([("path", "/v3/clusters/foo"), ("region", "us-east-1")].filter
          (fun q => ¬(q.1 = "path"))) [] none =
        .ok (⟨"GET",
          "https://a.execute-api.us-east-1.amazonaws.com/v3/clusters/foo?region=us-east-1",
          none, [], "us-east-1", some 30⟩, ⟨200, "okbody"⟩)
    ∧ (pclusterGet cfg0 send200 false false verifyUser (some "tok")
          [("path", "/v3/clusters/foo"), ("region", "us-east-1")] =
        .response ⟨"GET",
          "https://a.execute-api.us-east-1.amazonaws.com/v3/clusters/foo?region=us-east-1",
          none, [], "us-east-1", some 30⟩ (HttpResponse.mk 200 "okbody").body
          (HttpResponse.mk 200 "okbody").status
        ∧ (HttpResponse.mk 200 "okbody") = send200 ⟨"GET",
            "https://a.execute-api.us-east-1.amazonaws.com/v3/clusters/foo?region=us-east-1",
            none, [], "us-east-1", some 30⟩) :=
  ⟨rfl, rfl, rfl,
   forward_relays_backend cfg0 send200 false verifyUser (some "tok")
     [("path", "/v3/clusters/foo"), ("region", "us-east-1")] "/v3/clusters/foo"
     ⟨"GET",
       "https://a.execute-api.us-east-1.amazonaws.com/v3/clusters/foo?region=us-east-1",
       none, [], "us-east-1", some 30⟩ ⟨200, "okbody"⟩ rfl rfl rfl⟩

/-- C7: when the inbound query parameters include `path`, parameter
extraction succeeds and the forwarded set is the inbound set with exactly
the `path` entries removed: a pair is forwarded iff it was inbound and its
key is not `path`. -/
theorem get_params_strips_path (args : Params) (k v : String)
    (h : hasParam args "path" = true) :
    _get_params args = .ok (args.filter (fun q => ¬(q.1 = "path")))
    ∧ ((k, v) ∈ args.filter (fun q => ¬(q.1 = "path")) ↔
        ((k, v) ∈ args ∧ k ≠ "path")) := by
  refine ⟨by simp [_get_params, h], ?_⟩
  simp [List.mem_filter]

/-- C7 witness: the spec's example — `path=/v3/clusters/foo&region=us-east-1`
forwards exactly `region=us-east-1`. -/
theorem get_params_strips_path_witness :
    hasParam [("path", "/v3/clusters/foo"), ("region", "us-east-1")] "path" = true
    ∧ (_get_params [("path", "/v3/clusters/foo"), ("region", "us-east-1")] =
          .ok ([("path", "/v3/clusters/foo"), ("region", "us-east-1")].filter
            (fun q => ¬(q.1 = "path")))
        ∧ (("region", "us-east-1") ∈
            [("path", "/v3/clusters/foo"), ("region", "us-east-1")].filter
              (fun q => ¬(q.1 = "path")) ↔
            (("region", "us-east-1") ∈
              [("path", "/v3/clusters/foo"), ("region", "us-east-1")]
            ∧ ("region" : String) ≠ "path")))
    ∧ [("path", "/v3/clusters/foo"), ("region", "us-east-1")].filter
        (fun q => ¬(q.1 = "path")) = [("region", "us-east-1")] :=
  ⟨rfl,
   get_params_strips_path [("path", "/v3/clusters/foo"), ("region", "us-east-1")]
     "region" "us-east-1" rfl,
   by decide⟩

/-- C8 (code bug): a DELETE whose headers carry
`Content-Type: application/json` (present under werkzeug's case-insensitive
lookup, third conjunct) and whose caller supplied a JSON body still
dispatches with `data = none`: the body condition reads the misspelled
`ContentType` key, which the request does not carry, so the caller's body is
dropped. -/
theorem delete_content_type_typo :
    dataOfOutcome (pclusterDelete cfg0 send200 false false verifyUA (some "tok")
        [("path", "/v3/clusters/c1")] [("Content-Type", "application/json")]
        (.ok "clusterbody")) = some none
    ∧ headersHasKey [("Content-Type", "application/json")] "Content-Type" = true
    ∧ headersGet [("Content-Type", "application/json")] "Content-Type" =
        some "application/json"
    ∧ headersGet [("Content-Type", "application/json")] "ContentType" = none := by
  refine ⟨?_, by decide, by decide, by decide⟩
  decide

/-- C9 counterexample: the outbound dispatch of a successful
`sigv4_request` carries `timeout=30` — not the absence of a timeout bound
the claim states. -/
theorem outbound_timeout_present :
    timeoutOfResult (sigv4_request send200 "GET"
        "https://a.execute-api.us-east-1.amazonaws.com" "/v3/clusters" [] [] none) =
      some 30
    ∧ some 30 ≠ (none : Option Nat) := by
  refine ⟨by decide, by decide⟩

/-- C9 (amended): every outbound dispatch issued by `sigv4_request` carries
a fixed 30-second timeout set by this gateway. -/
theorem outbound_timeout_thirty (send : OutboundCall → HttpResponse)
    (method host path : String) (params headers : Params) (body : Option String)
    (c : OutboundCall) (r : HttpResponse)
    (h : sigv4_request send method host path params headers body = .ok (c, r)) :
    c.timeout = some 30 :=
  (sigv4_ok_elim send method host path params headers body c r h).2

/-- C9 (amended) witness: a concrete successful dispatch. -/
theorem outbound_timeout_thirty_witness :
    sigv4_request send200 "GET" "https://a.execute-api.us-east-1.amazonaws.com"
        "/v3/clusters" [] [] none =
      .ok (⟨"GET", "https://a.execute-api.us-east-1.amazonaws.com/v3/clusters?",
        none, [], "us-east-1", some 30⟩, ⟨200, "okbody"⟩)
    ∧ (OutboundCall.mk "GET"
        "https://a.execute-api.us-east-1.amazonaws.com/v3/clusters?"
        none [] "us-east-1" (some 30)).timeout = some 30 :=
  ⟨rfl,
   outbound_timeout_thirty send200 "GET"
     "https://a.execute-api.us-east-1.amazonaws.com" "/v3/clusters" [] [] none
     ⟨"GET", "https://a.execute-api.us-east-1.amazonaws.com/v3/clusters?",
       none, [], "us-east-1", some 30⟩ ⟨200, "okbody"⟩ rfl⟩

/-- C10: when the query parameters of a gated-through request lack `path`,
both the GET and the DELETE proxy handlers end in the uncaught `KeyError`
from `_get_params`'s unconditional pop, and no outbound call is made: the
outcome is identical for any two transports. -/
theorem missing_path_raises_keyerror (cfg : Config)
    (send send' : OutboundCall → HttpResponse) (dis : Bool)
    (verify : String → VerifyResult) (tok : Option String)
    (args headers : Params) (s : String)
    (hU : authenticate cfg false dis verify tok "user" = none)
    (hA : authenticate cfg false dis verify tok "admin" = none)
    (hNo : hasParam args "path" = false) :
    pclusterGet cfg send false dis verify tok args = .pyError .keyError
    ∧ pclusterDelete cfg send false dis verify tok args headers (.ok s) =
        .pyError .keyError
    ∧ pclusterGet cfg send false dis verify tok args =
        pclusterGet cfg send' false dis verify tok args := by
  have hg : _get_params args = .error .keyError := by
    simp [_get_params, hNo]
  have hGet : pclusterGet cfg send false dis verify tok args = .pyError .keyError := by
    simp only [pclusterGet, hU, hg]
  have hGet' : pclusterGet cfg send' false dis verify tok args = .pyError .keyError := by
    simp only [pclusterGet, hU, hg]
  refine ⟨hGet, ?_, by rw [hGet, hGet']⟩
  by_cases hCT : headersHasKey headers "Content-Type"
      ∧ headersGet headers "ContentType" = some "application/json"
  · simp only [pclusterDelete, hU, hA, if_pos hCT, Except.map, hg]
  · simp only [pclusterDelete, hU, hA, if_neg hCT, hg]

/-- C10 witness: a GET/DELETE whose only parameter is `region`. -/
theorem missing_path_raises_keyerror_witness :
    authenticate cfg0 false false verifyUA (some "tok") "user" = none
    ∧ authenticate cfg0 false false verifyUA (some "tok") "admin" = none
    ∧ hasParam [("region", "us-east-1")] "path" = false
    ∧ (pclusterGet cfg0 send200 false false verifyUA (some "tok")
          [("region", "us-east-1")] = .pyError .keyError
        ∧ pclusterDelete cfg0 send200 false false verifyUA (some "tok")
            [("region", "us-east-1")] [] (.ok "body") = .pyError .keyError
        ∧ pclusterGet cfg0 send200 false false verifyUA (some "tok")
            [("region", "us-east-1")] =
          pclusterGet cfg0 send500 false false verifyUA (some "tok")
            [("region", "us-east-1")]) :=
  ⟨rfl, rfl, rfl,
   missing_path_raises_keyerror cfg0 send200 send500 false verifyUA (some "tok")
     [("region", "us-east-1")] [] "body" rfl rfl rfl⟩

end PclusterSpec
